import Mathlib

/-!
Verification of the composite-selector repository.

Shallow embedding of the core of the `ai-composite-selector` repository:
the EMG normalizer (`Код_нормализации_ЭМГ.py`), the composite catalog,
filter and scoring engine (`app/composite_selector.py`) and the model
trainer (`app/model_trainer.py`).  Python floats are modelled as `ℚ`,
`None`-able values as `Option`, raised exceptions as `Except`, and pandas
data frames as lists of records.  External library calls (sklearn's
`train_test_split`, the classifiers and the `StandardScaler`) are modelled
by recording the data they are applied to, or passed in as function
parameters.
-/

namespace AICS

/-- The `EMGApparatus` enum of `Код_нормализации_ЭМГ.py`. -/
inductive EMGApparatus
  | bjoemg2
  | synapsys
  | kolibri
  | other
deriving DecidableEq, Repr

/-- The `MuscleType` enum. -/
inductive MuscleType
  | masseter
  | temporalis
deriving DecidableEq, Repr

/-- The `MeasurementCondition` enum. -/
inductive MeasurementCondition
  | chewing
  | max_clench
deriving DecidableEq, Repr

/-- `EMGNormalizer.CONTROL_VALUES_SYNAPSYS`. -/
def CONTROL_VALUES_SYNAPSYS : MeasurementCondition → MuscleType → ℚ
  | .chewing, .masseter => 352.5
  | .chewing, .temporalis => 224.0
  | .max_clench, .masseter => 355.0
  | .max_clench, .temporalis => 262.0

/-- `EMGNormalizer.CONTROL_VALUES_KOLIBRI`. -/
def CONTROL_VALUES_KOLIBRI : MeasurementCondition → MuscleType → ℚ
  | .chewing, .masseter => 111.0
  | .chewing, .temporalis => 138.0
  | .max_clench, .masseter => 278.0
  | .max_clench, .temporalis => 558.0

/-- `EMGNormalizer.CONTROL_VALUES_BJOEMG2`. -/
def CONTROL_VALUES_BJOEMG2 : MeasurementCondition → MuscleType → ℚ
  | .chewing, .masseter => 60.0
  | .chewing, .temporalis => 60.0
  | .max_clench, .masseter => 230.0
  | .max_clench, .temporalis => 230.0

/-- `EMGNormalizer.CONVERSION_COEFFICIENTS`. -/
def CONVERSION_COEFFICIENTS : MeasurementCondition → MuscleType → ℚ
  | .chewing, .masseter => 3.1
  | .chewing, .temporalis => 1.75
  | .max_clench, .masseter => 1.3
  | .max_clench, .temporalis => 0.5

/-- The apparatus dispatch of `EMGNormalizer.normalize_to_control` (the
if/elif chain choosing the control table, with the Synapsys fallback for
unknown apparatuses). -/
def control_table (apparatus : EMGApparatus) (condition : MeasurementCondition)
    (muscle : MuscleType) : ℚ :=
  if apparatus = .synapsys then CONTROL_VALUES_SYNAPSYS condition muscle
  else if apparatus = .kolibri then CONTROL_VALUES_KOLIBRI condition muscle
  else if apparatus = .bjoemg2 then CONTROL_VALUES_BJOEMG2 condition muscle
  else CONTROL_VALUES_SYNAPSYS condition muscle

/-- `EMGNormalizer.normalize_to_control`.  The `side` argument is accepted
and unused, exactly as in the source.  The normalizer object carries no
state that this method reads, so it is not a parameter. -/
def normalize_to_control (value : ℚ) (apparatus : EMGApparatus) (muscle : MuscleType)
    (condition : MeasurementCondition) (side : String) : ℚ :=
  (value / control_table apparatus condition muscle) * 100

/-- The `ValueError`s raised by `EMGNormalizer.convert_between_apparatus`;
one constructor per distinct raise site. -/
inductive ConvError
  | unsupported_from (a : EMGApparatus)
  | unsupported_to (a : EMGApparatus)
  | unsupported_pair
deriving DecidableEq, Repr

/-- `EMGNormalizer.convert_between_apparatus`: conversion is hard-coded
against `SYNAPSYS`; only the Kolibri case of either direction returns a
value, every other distinct pair raises. -/
def convert_between_apparatus (value : ℚ) (from_apparatus to_apparatus : EMGApparatus)
    (muscle : MuscleType) (condition : MeasurementCondition) : Except ConvError ℚ :=
  if from_apparatus = to_apparatus then .ok value
  else if to_apparatus = .synapsys then
    if from_apparatus = .kolibri then
      .ok (value * CONVERSION_COEFFICIENTS condition muscle)
    else .error (.unsupported_from from_apparatus)
  else if from_apparatus = .synapsys then
    if to_apparatus = .kolibri then
      .ok (value / CONVERSION_COEFFICIENTS condition muscle)
    else .error (.unsupported_to to_apparatus)
  else .error .unsupported_pair

/-- `EMGNormalizer.calculate_relative_change`. -/
def calculate_relative_change (value_before value_after : ℚ) : ℚ :=
  if value_before = 0 then 0.0
  else ((value_after - value_before) / value_before) * 100

/-- Python `str.lower` restricted to the alphabets the source compares
against: ASCII letters and the basic Cyrillic block (`А..Я`, `Ё`). -/
def charLower (c : Char) : Char :=
  if 0x41 ≤ c.toNat ∧ c.toNat ≤ 0x5A then Char.ofNat (c.toNat + 32)
  else if 0x410 ≤ c.toNat ∧ c.toNat ≤ 0x42F then Char.ofNat (c.toNat + 32)
  else if c.toNat = 0x401 then Char.ofNat 0x451
  else c

/-- Python `str.lower` on a string (see `charLower`). -/
def strLower (s : String) : String := String.mk (s.toList.map charLower)

/-- Whether the second char list begins the first (helper for the Python
substring and `str.startswith` tests). -/
def charsStart : List Char → List Char → Bool
  | _, [] => true
  | [], _ :: _ => false
  | c :: cs, p :: ps => c = p && charsStart cs ps

/-- Whether the second char list occurs inside the first (Python `in`). -/
def charsContain : List Char → List Char → Bool
  | [], pat => pat.isEmpty
  | c :: cs, pat => charsStart (c :: cs) pat || charsContain cs pat

/-- Python `pat in s` on strings. -/
def strContains (s pat : String) : Bool := charsContain s.toList pat.toList

/-- Python `s.startswith(pat)`. -/
def strStarts (s pat : String) : Bool := charsStart s.toList pat.toList

/-- Fuelled worker for `strReplace`: replaces left-to-right non-overlapping
occurrences of `pat`.  Each step consumes at least one character of the
input when `pat` is non-empty, so fuel equal to the input length is
exact; the fuel only makes the recursion structural. -/
def charsReplaceFuel : ℕ → List Char → List Char → List Char → List Char
  | 0, _, _, l => l
  | _ + 1, _, _, [] => []
  | fuel + 1, pat, rep, c :: cs =>
    if pat ≠ [] ∧ charsStart (c :: cs) pat = true then
      rep ++ charsReplaceFuel fuel pat rep ((c :: cs).drop pat.length)
    else c :: charsReplaceFuel fuel pat rep cs

/-- Python `s.replace(pat, rep)` for a non-empty pattern (the source only
replaces the literal prefixes `twes_` and `bushan_`). -/
def strReplace (s pat rep : String) : String :=
  String.mk (charsReplaceFuel s.toList.length pat.toList rep.toList s.toList)

/-- The apparatus-resolution block of `create_emg_features`: the exact
`EMGApparatus(...)` enum-value match, then the substring fallbacks on the
lowercased name, defaulting to Synapsys. -/
def parseApparatus (s : String) : EMGApparatus :=
  if s = "BjoEMG II" then .bjoemg2
  else if s = "Synapsys" then .synapsys
  else if s = "Kolibri" then .kolibri
  else if s = "Other" then .other
  else
    let low := strLower s
    if strContains low "bjoemg" || strContains low "biopak" then .bjoemg2
    else if strContains low "kolibri" || strContains low "колибри" then .kolibri
    else if strContains low "synapsys" || strContains low "синапсис" then .synapsys
    else .synapsys

/-- The `emg_data` dictionary consumed by `create_emg_features`: each key
the function reads, `Option` marking a possibly missing key (the source
uses `.get(key, default)` throughout). -/
structure EMGDict where
  apparatus : Option String
  masseter_right_chewing : Option ℚ
  masseter_left_chewing : Option ℚ
  temporalis_right_chewing : Option ℚ
  temporalis_left_chewing : Option ℚ
  masseter_right_max_clench : Option ℚ
  masseter_left_max_clench : Option ℚ
  temporalis_right_max_clench : Option ℚ
  temporalis_left_max_clench : Option ℚ
deriving DecidableEq, Repr

/-- One iteration of the normalized-values loop of `create_emg_features`:
the entry `key ++ "_normalized"` is produced only when the raw value
(defaulted to 0 for a missing key) is strictly positive. -/
def normEntry (app : EMGApparatus) (raw : Option ℚ) (key : String)
    (muscle : MuscleType) (condition : MeasurementCondition) (side : String) :
    List (String × ℚ) :=
  let value := raw.getD 0
  if 0 < value then
    [(key ++ "_normalized", normalize_to_control value app muscle condition side)]
  else []

/-- `create_emg_features` of `Код_нормализации_ЭМГ.py`.  The resulting
one-row `DataFrame` is modelled as its row: an association list in the
dictionary insertion order of the source.  The normalized-values loop
(side, then muscle, then condition) is unrolled in its iteration order;
the `before`/`after` branch of the source is a `pass` and contributes
nothing. -/
def create_emg_features (d : EMGDict) : List (String × ℚ) :=
  let app := parseApparatus (d.apparatus.getD "Synapsys")
  let raws : List (String × ℚ) :=
    [("masseter_right_chewing_raw", d.masseter_right_chewing.getD 0),
     ("masseter_left_chewing_raw", d.masseter_left_chewing.getD 0),
     ("temporalis_right_chewing_raw", d.temporalis_right_chewing.getD 0),
     ("temporalis_left_chewing_raw", d.temporalis_left_chewing.getD 0),
     ("masseter_right_max_clench_raw", d.masseter_right_max_clench.getD 0),
     ("masseter_left_max_clench_raw", d.masseter_left_max_clench.getD 0),
     ("temporalis_right_max_clench_raw", d.temporalis_right_max_clench.getD 0),
     ("temporalis_left_max_clench_raw", d.temporalis_left_max_clench.getD 0)]
  let normalized : List (String × ℚ) :=
    normEntry app d.masseter_right_chewing "masseter_right_chewing" .masseter .chewing "right"
    ++ normEntry app d.masseter_right_max_clench "masseter_right_max_clench" .masseter .max_clench "right"
    ++ normEntry app d.temporalis_right_chewing "temporalis_right_chewing" .temporalis .chewing "right"
    ++ normEntry app d.temporalis_right_max_clench "temporalis_right_max_clench" .temporalis .max_clench "right"
    ++ normEntry app d.masseter_left_chewing "masseter_left_chewing" .masseter .chewing "left"
    ++ normEntry app d.masseter_left_max_clench "masseter_left_max_clench" .masseter .max_clench "left"
    ++ normEntry app d.temporalis_left_chewing "temporalis_left_chewing" .temporalis .chewing "left"
    ++ normEntry app d.temporalis_left_max_clench "temporalis_left_max_clench" .temporalis .max_clench "left"
  let asym : List (String × ℚ) :=
    [("masseter_asymmetry_chewing",
      |d.masseter_right_chewing.getD 0 - d.masseter_left_chewing.getD 0|),
     ("temporalis_asymmetry_chewing",
      |d.temporalis_right_chewing.getD 0 - d.temporalis_left_chewing.getD 0|)]
  let flags : List (String × ℚ) :=
    [("apparatus_synapsys", if app = .synapsys then 1 else 0),
     ("apparatus_kolibri", if app = .kolibri then 1 else 0)]
  raws ++ normalized ++ asym ++ flags

/-- A row of the composite catalog (`composites` in `База_композитов.json`,
one record of the `CompositeDatabase.composites` data frame).  String-typed
columns stay strings, numeric columns are `ℚ`. -/
structure Composite where
  name : String
  category : String
  manufacturer : String
  region : String
  year_released : ℤ
  price_rub : ℚ
  microhardness_KHN : ℚ
  polymerization_shrinkage_percent : ℚ
  filler_content_percent : ℚ
  wear_resistance : String
  depth_of_cure_mm : ℚ
  viscosity : String
  suitable_for_occlusal : Bool
  requires_capping : Bool
deriving DecidableEq, Repr

/-- `selection_criteria.for_occlusal_restorations.required` of the catalog
file. -/
structure OcclusalRequired where
  viscosity : String
  polymerization_shrinkage_percent_max : ℚ
  microhardness_KHN_min : ℚ
  suitable_for_occlusal : Bool
  requires_capping : Bool
deriving DecidableEq, Repr

/-- `selection_criteria.for_occlusal_restorations`. -/
structure OcclusalCriteria where
  required : OcclusalRequired
  excluded_categories : List String
deriving DecidableEq, Repr

/-- `selection_criteria.for_patients_with_occlusion_anomalies.additional_requirements`. -/
structure AnomalyAdditional where
  microhardness_KHN_min : ℚ
  polymerization_shrinkage_percent_max : ℚ
deriving DecidableEq, Repr

/-- `emg_based_classification.wear_severity_none_mild` (only the
`recommended_microhardness_min` key is read). -/
structure EMGNoneMild where
  recommended_microhardness_min : ℚ
deriving DecidableEq, Repr

/-- `emg_based_classification.wear_severity_moderate_severe`. -/
structure EMGModerateSevere where
  recommended_microhardness_min : ℚ
  recommended_wear_resistance : String
deriving DecidableEq, Repr

/-- One grade/degree record of the TWES 2.0 or Bushan classification
table.  `Option` marks keys the JSON record may lack; the source reads
them with `.get(key, default)`. -/
structure GradeCriteria where
  recommended_microhardness_min : Option ℚ
  recommended_wear_resistance : Option String
  recommended_filler_min : Option ℚ
deriving DecidableEq, Repr

/-- The loaded `CompositeDatabase`.  A classification of `none` models the
source conditions `if self.twes2_classification and 'grades' in ...` (or
the Bushan analogue) failing: an absent, empty or grade-less table.  The
`has_year_column`/`has_price_column` flags model the
`'year_released' in df.columns` / `'price_rub' in df.columns` checks. -/
structure CompositeDatabase where
  composites : List Composite
  criteria_for_occlusal : OcclusalCriteria
  criteria_anomaly : AnomalyAdditional
  emg_none_mild : EMGNoneMild
  emg_moderate_severe : EMGModerateSevere
  bushan_classification : Option (List (String × GradeCriteria))
  twes2_classification : Option (List (String × GradeCriteria))
  has_year_column : Bool
  has_price_column : Bool
deriving DecidableEq, Repr

/-- `PatientData` of `app/composite_selector.py`. -/
structure PatientData where
  apparatus : String
  masseter_right_chewing : ℚ
  masseter_left_chewing : ℚ
  temporalis_right_chewing : ℚ
  temporalis_left_chewing : ℚ
  masseter_right_max_clench : ℚ
  masseter_left_max_clench : ℚ
  temporalis_right_max_clench : ℚ
  temporalis_left_max_clench : ℚ
  age : Option ℤ
  occlusion_anomaly_type : Option String
  wear_severity : Option String
  mvc_hyperfunction_percent : Option ℚ
  mvc_duration_sec_per_min : Option ℚ
  region_filter : Option (List String)
  manufacturer_filter : Option (List String)
  year_min : Option ℤ
  price_max : Option ℚ
deriving DecidableEq, Repr

/-- The `if for_occlusal:` block of `CompositeDatabase.filter_composites`
(lines 125-137): the five required-criteria row filters and the
excluded-categories filter, applied in source order. -/
def stage_occlusal (db : CompositeDatabase) (for_occlusal : Bool)
    (df : List Composite) : List Composite :=
  if for_occlusal then
    let required := db.criteria_for_occlusal.required
    let df := df.filter (fun c => decide (c.viscosity = required.viscosity))
    let df := df.filter (fun c =>
      decide (c.polymerization_shrinkage_percent ≤ required.polymerization_shrinkage_percent_max))
    let df := df.filter (fun c => decide (required.microhardness_KHN_min ≤ c.microhardness_KHN))
    let df := df.filter (fun c => decide (c.suitable_for_occlusal = required.suitable_for_occlusal))
    let df := df.filter (fun c => decide (c.requires_capping = required.requires_capping))
    df.filter (fun c => decide (c.category ∉ db.criteria_for_occlusal.excluded_categories))
  else df

/-- The `if use_article_rules:` block (lines 140-167): drop shrinkage above
3.0 %, then drop filler content below 20.0 %.  The `filler_optimal` tag
column the source also writes is read by no later code in the repository
and is not modelled. -/
def stage_article (use_article_rules : Bool) (df : List Composite) : List Composite :=
  if use_article_rules then
    let df := df.filter (fun c => decide (c.polymerization_shrinkage_percent ≤ 3.0))
    df.filter (fun c => decide (20.0 ≤ c.filler_content_percent))
  else df

/-- The `if has_occlusion_anomaly:` block (lines 170-174). -/
def stage_anomaly (db : CompositeDatabase) (has_occlusion_anomaly : Bool)
    (df : List Composite) : List Composite :=
  if has_occlusion_anomaly then
    let additional := db.criteria_anomaly
    let df := df.filter (fun c => decide (c.wear_resistance ∈ ["high", "very_high"]))
    let df := df.filter (fun c => decide (additional.microhardness_KHN_min ≤ c.microhardness_KHN))
    df.filter (fun c =>
      decide (c.polymerization_shrinkage_percent ≤ additional.polymerization_shrinkage_percent_max))
  else df

/-- The shared body of the TWES/Bushan branches of the wear-severity stage
(lines 183-194 and 200-211): hardness floor, wear-resistance set, filler
floor, with the source's `.get` defaults 50 / `"high"` / 60. -/
def apply_grade_criteria (criteria : GradeCriteria) (df : List Composite) : List Composite :=
  let min_hardness := criteria.recommended_microhardness_min.getD 50
  let df := df.filter (fun c => decide (min_hardness ≤ c.microhardness_KHN))
  let recommended_wear := criteria.recommended_wear_resistance.getD "high"
  let df :=
    if recommended_wear = "very_high" then
      df.filter (fun c => decide (c.wear_resistance ∈ ["very_high", "high"]))
    else
      df.filter (fun c => decide (c.wear_resistance ∈ ["high", "very_high", "medium"]))
  let min_filler := criteria.recommended_filler_min.getD 60
  df.filter (fun c => decide (min_filler ≤ c.filler_content_percent))

/-- Lookup of a TWES 2.0 grade record: `wear_severity.replace('twes_', '')`
keyed into the grades table when the table is present (lines 180-183). -/
def twes_grade_criteria (db : CompositeDatabase) (ws : String) : Option GradeCriteria :=
  db.twes2_classification.bind (fun grades => grades.lookup (strReplace ws "twes_" ""))

/-- Lookup of a Bushan degree record (lines 197-200). -/
def bushan_degree_criteria (db : CompositeDatabase) (ws : String) : Option GradeCriteria :=
  db.bushan_classification.bind (fun degrees => degrees.lookup (strReplace ws "bushan_" ""))

/-- The `if wear_severity:` block (lines 177-223).  An empty string is
falsy in Python, so it skips the whole stage; the prefix dispatch and the
silent fall-through when a grade/degree is not found mirror the source's
nested `if`s. -/
def stage_wear (db : CompositeDatabase) (wear_severity : Option String)
    (df : List Composite) : List Composite :=
  match wear_severity with
  | none => df
  | some ws =>
    if ws = "" then df
    else if strStarts ws "twes_" then
      match twes_grade_criteria db ws with
      | some criteria => apply_grade_criteria criteria df
      | none => df
    else if strStarts ws "bushan_" then
      match bushan_degree_criteria db ws with
      | some criteria => apply_grade_criteria criteria df
      | none => df
    else if ws = "none" ∨ ws = "mild" then
      df.filter (fun c =>
        decide (db.emg_none_mild.recommended_microhardness_min ≤ c.microhardness_KHN))
    else if ws = "moderate" ∨ ws = "severe" then
      let criteria := db.emg_moderate_severe
      let df := df.filter (fun c =>
        decide (criteria.recommended_microhardness_min ≤ c.microhardness_KHN))
      df.filter (fun c =>
        decide (c.wear_resistance ∈ [criteria.recommended_wear_resistance, "high"]))
    else df

/-- The optional region/manufacturer/year/price filters (lines 226-238).
`None`, an empty list, the year 0 and the price 0 are all falsy in Python
and skip their filter. -/
def stage_extra (db : CompositeDatabase) (region_filter manufacturer_filter : Option (List String))
    (year_min : Option ℤ) (price_max : Option ℚ) (df : List Composite) : List Composite :=
  let df :=
    match region_filter with
    | some rf => if rf ≠ [] ∧ "Все" ∉ rf then df.filter (fun c => decide (c.region ∈ rf)) else df
    | none => df
  let df :=
    match manufacturer_filter with
    | some mf =>
      if mf ≠ [] ∧ "Все" ∉ mf then df.filter (fun c => decide (c.manufacturer ∈ mf)) else df
    | none => df
  let df :=
    match year_min with
    | some y =>
      if y ≠ 0 ∧ db.has_year_column then df.filter (fun c => decide (y ≤ c.year_released)) else df
    | none => df
  match price_max with
  | some p =>
    if p ≠ 0 ∧ db.has_price_column then df.filter (fun c => decide (c.price_rub ≤ p)) else df
  | none => df

/-- `CompositeDatabase.filter_composites`: the five stages applied in
source order to a copy of the catalog. -/
def filter_composites (db : CompositeDatabase) (for_occlusal has_occlusion_anomaly : Bool)
    (wear_severity : Option String) (use_article_rules : Bool)
    (region_filter manufacturer_filter : Option (List String))
    (year_min : Option ℤ) (price_max : Option ℚ) : List Composite :=
  stage_extra db region_filter manufacturer_filter year_min price_max
    (stage_wear db wear_severity
      (stage_anomaly db has_occlusion_anomaly
        (stage_article use_article_rules
          (stage_occlusal db for_occlusal db.composites))))

/-- The `wear_map.get(..., 0.5)` lookup of `calculate_composite_score`. -/
def wear_map (w : String) : ℚ :=
  if w = "low" then 0.3
  else if w = "medium" then 0.6
  else if w = "high" then 0.9
  else if w = "very_high" then 1.0
  else 0.5

/-- `pandas.Series.max` over a numeric column.  The source never calls it
on an empty catalog in the scoring path; the empty case (NaN in pandas) is
mapped to 0. -/
def seriesMax (l : List ℚ) : ℚ :=
  match l.maximum with
  | some m => m
  | none => 0

/-- `CompositeDatabase.calculate_composite_score` (lines 242-332).  The
`emg_features` row is the association list produced by
`create_emg_features`; the `'masseter_asymmetry_chewing' in emg_features`
test is its lookup.  The Python truthiness guards on
`mvc_hyperfunction_percent` and `mvc_duration_sec_per_min` (`None` and 0.0
falsy) become the `Option` match plus the nonzero conjunct. -/
def calculate_composite_score (db : CompositeDatabase) (composite : Composite)
    (emg_features : List (String × ℚ)) (patient_data : PatientData) : ℚ :=
  let max_hardness := seriesMax (db.composites.map (·.microhardness_KHN))
  let hardness_score := composite.microhardness_KHN / max_hardness
  let score := 0.3 * hardness_score
  let wear_score := wear_map composite.wear_resistance
  let score := score + 0.25 * wear_score
  let max_shrinkage := seriesMax (db.composites.map (·.polymerization_shrinkage_percent))
  let shrinkage_score := 1 - composite.polymerization_shrinkage_percent / max_shrinkage
  let score := score + 0.2 * shrinkage_score
  let filler := composite.filler_content_percent
  let fillerBranch : ℚ × ℚ :=
    if 20 ≤ filler ∧ filler < 55 then
      (1.0, if 25 ≤ filler ∧ filler < 50 then 0.15 else 0.1)
    else if filler < 20 then (filler / 20, 0)
    else if 55 ≤ filler ∧ filler ≤ 70 then (0.8, 0)
    else if 70 < filler ∧ filler ≤ 85 then (0.6, 0)
    else (0.4, 0)
  let score := (score + fillerBranch.2) + 0.15 * fillerBranch.1
  let depth_score :=
    if composite.category = "high_viscosity_bulk_fill" ∨
        composite.category = "low_viscosity_bulk_fill" then
      composite.depth_of_cure_mm / 5.0
    else 0.7
  let score := score + 0.1 * depth_score
  let score :=
    match emg_features.lookup "masseter_asymmetry_chewing" with
    | some asymmetry => if 20 < asymmetry then score + 0.1 * hardness_score else score
    | none => score
  match patient_data.mvc_hyperfunction_percent with
  | some hyper =>
    if hyper ≠ 0 ∧ 20 < hyper then
      match patient_data.mvc_duration_sec_per_min with
      | some dur => if dur ≠ 0 ∧ 4 ≤ dur then score + 0.15 * wear_score else score
      | none => score
    else score
  | none => score

/-- `CompositeSelector._classify_wear_severity` (lines 431-450): an
explicit `wear_severity` is returned verbatim when truthy (non-empty);
otherwise the hyperfunction/duration fallback applies. -/
def classify_wear_fallback (patient_data : PatientData) : Option String :=
  match patient_data.mvc_hyperfunction_percent, patient_data.mvc_duration_sec_per_min with
  | some hyper, some dur =>
    if hyper ≠ 0 ∧ 20 < hyper ∧ dur ≠ 0 then
      if 1 ≤ dur ∧ dur ≤ 2 then some "mild"
      else if 4 ≤ dur ∧ dur ≤ 6 then some "moderate"
      else none
    else none
  | _, _ => none

/-- See `classify_wear_fallback`. -/
def classify_wear_severity (patient_data : PatientData) : Option String :=
  match patient_data.wear_severity with
  | some ws => if ws ≠ "" then some ws else classify_wear_fallback patient_data
  | none => classify_wear_fallback patient_data

/-- The justification record built by
`CompositeSelector._generate_justification`.  The Russian human-readable
`reasons` strings and the catalog `notes` are presentation text (spec
section 4.3 allows restating them) and are not modelled; the fields the
ranking logic produces deterministically are. -/
structure Justification where
  score : ℚ
  category : String
  is_priority : Bool
  priority_note : String
  filler_content : ℚ
deriving DecidableEq, Repr

/-- `CompositeSelector._generate_justification`, restricted to the
modelled fields (see `Justification`). -/
def generate_justification (composite : Composite) (score : ℚ) (is_pri : Bool) : Justification :=
  { score := score
    category := composite.category
    is_priority := is_pri
    priority_note :=
      if is_pri then ""
      else "Альтернативный вариант (наполнитель вне оптимального диапазона 25-50%)"
    filler_content := composite.filler_content_percent }

/-- The `emg_dict` literal built inside `select_composite`
(lines 375-385): every key present, taken from the patient record. -/
def patientEMGDict (patient_data : PatientData) : EMGDict :=
  { apparatus := some patient_data.apparatus
    masseter_right_chewing := some patient_data.masseter_right_chewing
    masseter_left_chewing := some patient_data.masseter_left_chewing
    temporalis_right_chewing := some patient_data.temporalis_right_chewing
    temporalis_left_chewing := some patient_data.temporalis_left_chewing
    masseter_right_max_clench := some patient_data.masseter_right_max_clench
    masseter_left_max_clench := some patient_data.masseter_left_max_clench
    temporalis_right_max_clench := some patient_data.temporalis_right_max_clench
    temporalis_left_max_clench := some patient_data.temporalis_left_max_clench }

/-- The filtered candidate set computed at the top of `select_composite`
(lines 361-369): occlusal filtering on, anomaly flag from the patient,
wear severity from `_classify_wear_severity`, article rules on, no extra
filters. -/
def selectFiltered (db : CompositeDatabase) (patient_data : PatientData) : List Composite :=
  filter_composites db true patient_data.occlusion_anomaly_type.isSome
    (classify_wear_severity patient_data) true none none none none

/-- The score `select_composite` computes for one candidate: the catalog
score against the features built from the patient's EMG dictionary. -/
def selectScore (db : CompositeDatabase) (patient_data : PatientData) (c : Composite) : ℚ :=
  calculate_composite_score db c (create_emg_features (patientEMGDict patient_data)) patient_data

/-- One `(composite, score, justification)` result tuple of
`select_composite`. -/
def scoredEntry (db : CompositeDatabase) (patient_data : PatientData) (is_pri : Bool)
    (c : Composite) : Composite × ℚ × Justification :=
  (c, selectScore db patient_data c,
   generate_justification c (selectScore db patient_data c) is_pri)

/-- The priority tier of `select_composite` (lines 390-393): filtered
candidates with filler content in `[20, 55)`. -/
def selectPriority (db : CompositeDatabase) (patient_data : PatientData) : List Composite :=
  (selectFiltered db patient_data).filter (fun c =>
    decide (20.0 ≤ c.filler_content_percent ∧ c.filler_content_percent < 55.0))

/-- The alternative tier of `select_composite` (lines 395-397): filtered
candidates with filler content `≥ 55`. -/
def selectAlternative (db : CompositeDatabase) (patient_data : PatientData) : List Composite :=
  (selectFiltered db patient_data).filter (fun c => decide (55.0 ≤ c.filler_content_percent))

/-- Descending order on the score component of a result tuple; sorting
with it by insertion keeps the catalog iteration order on ties, like the
stable Python `list.sort(key=score, reverse=True)`. -/
def scoreDesc (a b : Composite × ℚ × Justification) : Prop := b.2.1 ≤ a.2.1

instance : DecidableRel scoreDesc := fun a b => inferInstanceAs (Decidable (_ ≤ _))

instance : IsTotal (Composite × ℚ × Justification) scoreDesc :=
  ⟨fun a b => le_total b.2.1 a.2.1⟩

instance : IsTrans (Composite × ℚ × Justification) scoreDesc :=
  ⟨fun _ _ _ hab hbc => le_trans hbc hab⟩

/-- `CompositeSelector.select_composite` (lines 343-429): filter, build
EMG features, split into tiers, score, stable-sort each tier by
descending score, concatenate priority before alternative, truncate to
`top_n`. -/
def select_composite (db : CompositeDatabase) (patient_data : PatientData)
    (top_n : ℕ) (include_alternatives : Bool) : List (Composite × ℚ × Justification) :=
  if selectFiltered db patient_data = [] then []
  else
    let priority_results :=
      (selectPriority db patient_data).map (scoredEntry db patient_data true)
    let alternative_results :=
      (if include_alternatives then selectAlternative db patient_data else []).map
        (scoredEntry db patient_data false)
    ((List.insertionSort scoreDesc priority_results) ++
     (List.insertionSort scoreDesc alternative_results)).take top_n

/-- `EMGCompositePair` of `app/model_trainer.py`. -/
structure EMGCompositePair where
  masseter_right_chewing : Option ℚ
  masseter_left_chewing : Option ℚ
  temporalis_right_chewing : Option ℚ
  temporalis_left_chewing : Option ℚ
  masseter_right_max_clench : Option ℚ
  masseter_left_max_clench : Option ℚ
  temporalis_right_max_clench : Option ℚ
  temporalis_left_max_clench : Option ℚ
  age : Option ℤ
  occlusion_anomaly : Option String
  wear_severity : Option String
  mvc_hyperfunction_percent : Option ℚ
  composite_name : Option String
  composite_category : Option String
  source_article : String
  source_url : String
  source_year : Option ℤ
  apparatus : String
deriving DecidableEq, Repr

/-- The `if p.composite_name` filter of `prepare_training_data`: Python
truthiness keeps only a present, non-empty label. -/
def isLabeled (p : EMGCompositePair) : Bool := p.composite_name.getD "" ≠ ""

/-- The `feature_cols` list of `prepare_training_data`. -/
def feature_cols : List String :=
  ["masseter_right_chewing", "masseter_left_chewing",
   "temporalis_right_chewing", "temporalis_left_chewing",
   "masseter_right_max_clench", "masseter_left_max_clench",
   "temporalis_right_max_clench", "temporalis_left_max_clench",
   "masseter_avg_chewing", "temporalis_avg_chewing",
   "masseter_avg_max", "temporalis_avg_max",
   "age", "mvc_hyperfunction_percent"]

/-- The 14-entry feature row `prepare_training_data` builds for one
labeled pair: the 8 raw EMG fields (`x or 0` defaults), the 4 derived
averages, age and hyperfunction percent, in `feature_cols` order. -/
def featureRow (p : EMGCompositePair) : List ℚ :=
  let mrc := p.masseter_right_chewing.getD 0
  let mlc := p.masseter_left_chewing.getD 0
  let trc := p.temporalis_right_chewing.getD 0
  let tlc := p.temporalis_left_chewing.getD 0
  let mrm := p.masseter_right_max_clench.getD 0
  let mlm := p.masseter_left_max_clench.getD 0
  let trm := p.temporalis_right_max_clench.getD 0
  let tlm := p.temporalis_left_max_clench.getD 0
  [mrc, mlc, trc, tlc, mrm, mlm, trm, tlm,
   (mrc + mlc) / 2, (trc + tlc) / 2, (mrm + mlm) / 2, (trm + tlm) / 2,
   ((p.age.getD 0 : ℤ) : ℚ), p.mvc_hyperfunction_percent.getD 0]

/-- The feature matrix `X` of `prepare_training_data`. -/
def prepare_X (pairs : List EMGCompositePair) : List (List ℚ) :=
  (pairs.filter isLabeled).map featureRow

/-- The target column `y` of `prepare_training_data`. -/
def prepare_y (pairs : List EMGCompositePair) : List String :=
  (pairs.filter isLabeled).map (fun p => p.composite_name.getD "")

/-- `collections.Counter(y)[label]`. -/
def countLabel (y : List String) (label : String) : ℕ :=
  (y.filter (fun s => s == label)).length

/-- `min(Counter(y).values())`: the support of the rarest class (0 for an
empty column, which the source never reaches). -/
def minClassCount (y : List String) : ℕ :=
  ((y.dedup.map (countLabel y)).minimum).getD 0

/-- The four lists sklearn's `train_test_split` returns. -/
structure TTSplit where
  X_train : List (List ℚ)
  X_test : List (List ℚ)
  y_train : List String
  y_test : List String
deriving DecidableEq, Repr

/-- The split-policy block of `CompositeModelTrainer.train`
(lines 338-353).  `tts` stands for the external call
`train_test_split(X, y, test_size=0.1, random_state=42, stratify=y)`;
only its test part is kept, because the deployed model is trained on all
of `X` in every branch. -/
def resolve_split (X : List (List ℚ)) (y : List String)
    (tts : List (List ℚ) → List String → TTSplit) : TTSplit :=
  if X.length > 200 ∧ 5 ≤ minClassCount y then
    let s := tts X y
    { X_train := X, X_test := s.X_test, y_train := y, y_test := s.y_test }
  else if X.length > 100 ∧ 3 ≤ minClassCount y then
    { X_train := X, X_test := X, y_train := y, y_test := y }
  else
    { X_train := X, X_test := X, y_train := y, y_test := y }

/-- A fitted classifier, modelled by what kind it is and which data the
external libraries fitted it on (the data is scaled first by the
`StandardScaler`; the numeric transform itself is external). -/
structure FittedModel where
  kind : String
  fit_X : List (List ℚ)
  fit_y : List String
deriving DecidableEq, Repr

/-- The mutable attributes of `CompositeModelTrainer` the training path
writes: `model`, the scaler (by the data it was fitted on) and
`feature_names`. -/
structure TrainerState where
  model : Option FittedModel
  scaler_fit : Option (List (List ℚ))
  feature_names : List String
deriving DecidableEq, Repr

/-- The result dictionary `train` returns (the `accuracy` entry is the
external classifier's score on the evaluation set and is not modelled). -/
structure TrainMetrics where
  train_size : ℕ
  test_size : ℕ
  unique_composites : ℕ
  model_type_out : String
deriving DecidableEq, Repr

/-- The `ValueError`s of the training path, one per raise site. -/
inductive TrainError
  | no_data
  | no_labeled_pairs
  | insufficient_data (n : ℕ)
  | unknown_model_type (s : String)
deriving DecidableEq, Repr

/-- `CompositeModelTrainer.train` (with `prepare_training_data` inlined,
as the source calls it).  A raised exception is `Except.error` carrying
the trainer state at the raise point, so partial attribute mutation is
observable: `feature_names` is set by `prepare_training_data` before the
`len(X) < 2` check, the scaler is fitted before the unknown-model-type
check, and `model` is only assigned after every check has passed.  The
ensemble upgrade (`use_ensemble` and more than 50 training rows) refits
on the same training data, so only the model kind records it; its
try/except fallback is an external-library failure mode with no effect on
which data is fitted. -/
def train (st : TrainerState) (pairs : List EMGCompositePair) (model_type : String)
    (use_ensemble : Bool) (tts : List (List ℚ) → List String → TTSplit) :
    Except (TrainError × TrainerState) (TrainerState × TrainMetrics) :=
  if pairs = [] then .error (.no_data, st)
  else if pairs.filter isLabeled = [] then .error (.no_labeled_pairs, st)
  else
    let X := prepare_X pairs
    let y := prepare_y pairs
    let st := { st with feature_names := feature_cols }
    if X.length < 2 then .error (.insufficient_data X.length, st)
    else
      let split := resolve_split X y tts
      let st := { st with scaler_fit := some split.X_train }
      if model_type ≠ "random_forest" ∧ model_type ≠ "gradient_boosting" then
        .error (.unknown_model_type model_type, st)
      else
        let out_type :=
          if use_ensemble ∧ split.X_train.length > 50 then "ensemble" else model_type
        let st := { st with
          model := some { kind := out_type, fit_X := split.X_train, fit_y := split.y_train } }
        .ok (st,
          { train_size := split.X_train.length
            test_size := split.X_test.length
            unique_composites := y.dedup.length
            model_type_out := out_type })

/-- The `test_size` entry of a train result; 0 when training failed. -/
def trainTestSize (r : Except (TrainError × TrainerState) (TrainerState × TrainMetrics)) : ℕ :=
  match r with
  | .ok (_, m) => m.test_size
  | .error _ => 0

/-- The `train_size` entry of a train result; 0 when training failed. -/
def trainTrainSize (r : Except (TrainError × TrainerState) (TrainerState × TrainMetrics)) : ℕ :=
  match r with
  | .ok (_, m) => m.train_size
  | .error _ => 0

/-! ### Concrete fixtures for witnesses and counterexamples -/

/-- A catalog row that passes every default filter stage (priority tier). -/
def compA : Composite :=
  { name := "Alpha"
    category := "packable_composite"
    manufacturer := "MfrA"
    region := "EU"
    year_released := 2020
    price_rub := 1500
    microhardness_KHN := 80
    polymerization_shrinkage_percent := 2
    filler_content_percent := 30
    wear_resistance := "high"
    depth_of_cure_mm := 4
    viscosity := "packable"
    suitable_for_occlusal := true
    requires_capping := false }

/-- A high-filler catalog row (alternative tier). -/
def compB : Composite :=
  { name := "Beta"
    category := "packable_composite"
    manufacturer := "MfrB"
    region := "US"
    year_released := 2021
    price_rub := 2500
    microhardness_KHN := 90
    polymerization_shrinkage_percent := 2.5
    filler_content_percent := 60
    wear_resistance := "very_high"
    depth_of_cure_mm := 4.5
    viscosity := "packable"
    suitable_for_occlusal := true
    requires_capping := false }

/-- A catalog row the article rules exclude (shrinkage 4 %). -/
def compC : Composite :=
  { name := "Gamma"
    category := "packable_composite"
    manufacturer := "MfrC"
    region := "EU"
    year_released := 2019
    price_rub := 900
    microhardness_KHN := 70
    polymerization_shrinkage_percent := 4
    filler_content_percent := 45
    wear_resistance := "medium"
    depth_of_cure_mm := 3
    viscosity := "packable"
    suitable_for_occlusal := true
    requires_capping := false }

/-- A small concrete catalog database. -/
def db0 : CompositeDatabase :=
  { composites := [compA, compB, compC]
    criteria_for_occlusal :=
      { required :=
          { viscosity := "packable"
            polymerization_shrinkage_percent_max := 3.5
            microhardness_KHN_min := 50
            suitable_for_occlusal := true
            requires_capping := false }
        excluded_categories := ["flowable"] }
    criteria_anomaly :=
      { microhardness_KHN_min := 60, polymerization_shrinkage_percent_max := 2.5 }
    emg_none_mild := { recommended_microhardness_min := 50 }
    emg_moderate_severe :=
      { recommended_microhardness_min := 70, recommended_wear_resistance := "very_high" }
    bushan_classification :=
      some [("III",
        { recommended_microhardness_min := some 70
          recommended_wear_resistance := some "very_high"
          recommended_filler_min := some 60 })]
    twes2_classification :=
      some [("2",
        { recommended_microhardness_min := some 60
          recommended_wear_resistance := some "high"
          recommended_filler_min := some 50 })]
    has_year_column := true
    has_price_column := true }

/-- A plain patient record: all EMG amplitudes zero, no optional data. -/
def pd0 : PatientData :=
  { apparatus := "Synapsys"
    masseter_right_chewing := 0
    masseter_left_chewing := 0
    temporalis_right_chewing := 0
    temporalis_left_chewing := 0
    masseter_right_max_clench := 0
    masseter_left_max_clench := 0
    temporalis_right_max_clench := 0
    temporalis_left_max_clench := 0
    age := none
    occlusion_anomaly_type := none
    wear_severity := none
    mvc_hyperfunction_percent := none
    mvc_duration_sec_per_min := none
    region_filter := none
    manufacturer_filter := none
    year_min := none
    price_max := none }

/-- A training pair with the given label and no measurements. -/
def labeledPair (nm : String) : EMGCompositePair :=
  { masseter_right_chewing := none
    masseter_left_chewing := none
    temporalis_right_chewing := none
    temporalis_left_chewing := none
    masseter_right_max_clench := none
    masseter_left_max_clench := none
    temporalis_right_max_clench := none
    temporalis_left_max_clench := none
    age := none
    occlusion_anomaly := none
    wear_severity := none
    mvc_hyperfunction_percent := none
    composite_name := some nm
    composite_category := none
    source_article := ""
    source_url := ""
    source_year := none
    apparatus := "Unknown" }

/-- 200 labeled pairs: 40 classes with 5 examples each. -/
def pairs200 : List EMGCompositePair :=
  (List.range 40).flatMap (fun i => List.replicate 5 (labeledPair ("c" ++ toString i)))

/-- Two labeled pairs of different classes. -/
def pairs2 : List EMGCompositePair := [labeledPair "a", labeledPair "b"]

/-- A stand-in for the external stratified `train_test_split` with
`test_size=0.1`: on a 200-row input it returns a 20-row test part. -/
def tts0 (X : List (List ℚ)) (y : List String) : TTSplit :=
  { X_train := X.drop 20, X_test := X.take 20, y_train := y.drop 20, y_test := y.take 20 }

/-- A fresh trainer: no model, no fitted scaler, no feature names. -/
def st0 : TrainerState := { model := none, scaler_fit := none, feature_names := [] }

/-- The coefficient the asymmetry bonus of `calculate_composite_score`
puts on the hardness sub-score: 0.1 when the features carry a masseter
chewing asymmetry above 20, else 0. -/
def asymBonusCoeff (feat : List (String × ℚ)) : ℚ :=
  match feat.lookup "masseter_asymmetry_chewing" with
  | some asymmetry => if 20 < asymmetry then 0.1 else 0
  | none => 0

/-- The coefficient the hyperfunction bonus puts on the wear sub-score:
0.15 when hyperfunction exceeds 20 % with duration at least 4, else 0. -/
def hyperBonusCoeff (pd : PatientData) : ℚ :=
  match pd.mvc_hyperfunction_percent with
  | some hyper =>
    if hyper ≠ 0 ∧ 20 < hyper then
      match pd.mvc_duration_sec_per_min with
      | some dur => if dur ≠ 0 ∧ 4 ≤ dur then 0.15 else 0
      | none => 0
    else 0
  | none => 0

/-- Everything `calculate_composite_score` adds that does not depend on
the composite's microhardness. -/
def scoreRest (db : CompositeDatabase) (comp : Composite) (pd : PatientData) : ℚ :=
  let wear_score := wear_map comp.wear_resistance
  let shrinkage_score := 1 - comp.polymerization_shrinkage_percent /
    seriesMax (db.composites.map (fun x => x.polymerization_shrinkage_percent))
  let filler := comp.filler_content_percent
  let fillerBranch : ℚ × ℚ :=
    if 20 ≤ filler ∧ filler < 55 then
      (1.0, if 25 ≤ filler ∧ filler < 50 then 0.15 else 0.1)
    else if filler < 20 then (filler / 20, 0)
    else if 55 ≤ filler ∧ filler ≤ 70 then (0.8, 0)
    else if 70 < filler ∧ filler ≤ 85 then (0.6, 0)
    else (0.4, 0)
  let depth_score :=
    if comp.category = "high_viscosity_bulk_fill" ∨
        comp.category = "low_viscosity_bulk_fill" then
      comp.depth_of_cure_mm / 5.0
    else 0.7
  0.25 * wear_score + 0.2 * shrinkage_score + (fillerBranch.2 + 0.15 * fillerBranch.1)
    + 0.1 * depth_score + hyperBonusCoeff pd * wear_score

/-- An EMG dictionary with no entries at all. -/
def emgDict0 : EMGDict :=
  { apparatus := none
    masseter_right_chewing := none
    masseter_left_chewing := none
    temporalis_right_chewing := none
    temporalis_left_chewing := none
    masseter_right_max_clench := none
    masseter_left_max_clench := none
    temporalis_right_max_clench := none
    temporalis_left_max_clench := none }

/-! ### C8: relative change is guarded against division by zero -/

/-- C8: `calculate_relative_change(0, x)` returns 0.0 for every `x` (the
division is guarded, so the embedding is a total function), and for every
`before ≠ 0` the result is `((after - before) / before) * 100`. -/
theorem c8_relative_change_guarded (x b a : ℚ) (hb : b ≠ 0) :
    calculate_relative_change 0 x = 0 ∧
    calculate_relative_change b a = ((a - b) / b) * 100 := by
  refine ⟨by norm_num [calculate_relative_change], ?_⟩
  simp [calculate_relative_change, hb]

/-- C8 witness at `x = 7`, `before = 4`, `after = 5`. -/
theorem c8_witness :
    calculate_relative_change 0 7 = 0 ∧
    calculate_relative_change 4 5 = ((5 - 4) / 4) * 100 :=
  c8_relative_change_guarded 7 4 5 (by norm_num)

/-! ### C5: normalization formula and scale invariance -/

/-- C5: `normalize_to_control` divides the value by the apparatus's
control-table entry for the condition and muscle and multiplies by 100,
and it is scale-invariant: for `k > 0`,
`normalize_to_control (k*v) = k * normalize_to_control v`. -/
theorem c5_normalize_scale_invariant (v k : ℚ) (app : EMGApparatus) (m : MuscleType)
    (cond : MeasurementCondition) (s : String) (hk : 0 < k) :
    normalize_to_control v app m cond s = v / control_table app cond m * 100 ∧
    normalize_to_control (k * v) app m cond s = k * normalize_to_control v app m cond s := by
  refine ⟨rfl, ?_⟩
  unfold normalize_to_control
  ring

/-- C5 witness at `v = 3`, `k = 2`, Synapsys masseter chewing. -/
theorem c5_witness :
    normalize_to_control 3 .synapsys .masseter .chewing "right" =
      3 / control_table .synapsys .chewing .masseter * 100 ∧
    normalize_to_control (2 * 3) .synapsys .masseter .chewing "right" =
      2 * normalize_to_control 3 .synapsys .masseter .chewing "right" :=
  c5_normalize_scale_invariant 3 2 .synapsys .masseter .chewing "right" (by norm_num)

/-! ### C4: which apparatus conversions are supported -/

/-- C4 counterexample: `BjoEMG II → Synapsys` has the reference apparatus
on one side, yet the call raises (`Конвертация из ... не поддерживается`)
instead of succeeding as the claim states. -/
theorem c4_counterexample :
    convert_between_apparatus 1 .bjoemg2 .synapsys .masseter .chewing =
      .error (.unsupported_from .bjoemg2) := rfl

/-- C4 (amended): for every distinct apparatus pair, exactly the two
Kolibri/Synapsys conversions succeed — Kolibri→Synapsys multiplies by the
ratio-table coefficient and Synapsys→Kolibri divides by it — and every
other distinct pair (including BjoEMG II or Other paired with the
reference apparatus) fails with an unsupported-conversion error. -/
theorem c4_conversion_support (v : ℚ) (f t : EMGApparatus) (m : MuscleType)
    (cond : MeasurementCondition) (hne : f ≠ t) :
    (f = .kolibri ∧ t = .synapsys ∧
      convert_between_apparatus v f t m cond = .ok (v * CONVERSION_COEFFICIENTS cond m)) ∨
    (f = .synapsys ∧ t = .kolibri ∧
      convert_between_apparatus v f t m cond = .ok (v / CONVERSION_COEFFICIENTS cond m)) ∨
    (¬(f = .kolibri ∧ t = .synapsys) ∧ ¬(f = .synapsys ∧ t = .kolibri) ∧
      ∃ e, convert_between_apparatus v f t m cond = .error e) := by
  cases f <;> cases t <;>
    first
    | exact absurd rfl hne
    | exact Or.inl ⟨rfl, rfl, rfl⟩
    | exact Or.inr (Or.inl ⟨rfl, rfl, rfl⟩)
    | exact Or.inr (Or.inr ⟨by simp, by simp, _, rfl⟩)

/-- C4 witness: the amended statement instantiated at the supported
Kolibri→Synapsys conversion of the value 2. -/
theorem c4_witness :
    (EMGApparatus.kolibri = EMGApparatus.kolibri ∧ EMGApparatus.synapsys = EMGApparatus.synapsys ∧
      convert_between_apparatus 2 .kolibri .synapsys .masseter .chewing =
        .ok (2 * CONVERSION_COEFFICIENTS .chewing .masseter)) ∨
    (EMGApparatus.kolibri = EMGApparatus.synapsys ∧ EMGApparatus.synapsys = EMGApparatus.kolibri ∧
      convert_between_apparatus 2 .kolibri .synapsys .masseter .chewing =
        .ok (2 / CONVERSION_COEFFICIENTS .chewing .masseter)) ∨
    (¬(EMGApparatus.kolibri = EMGApparatus.kolibri ∧ EMGApparatus.synapsys = EMGApparatus.synapsys) ∧
      ¬(EMGApparatus.kolibri = EMGApparatus.synapsys ∧ EMGApparatus.synapsys = EMGApparatus.kolibri) ∧
      ∃ e, convert_between_apparatus 2 .kolibri .synapsys .masseter .chewing = .error e) :=
  c4_conversion_support 2 .kolibri .synapsys .masseter .chewing (by decide)

/-! ### Filter-stage lemmas shared by C2 and C10 -/

/-- An element of a filtered list is an element of the list. -/
lemma mem_filterD {l : List Composite} {p : Composite → Bool} {c : Composite}
    (h : c ∈ l.filter p) : c ∈ l := (List.mem_filter.mp h).1

/-- The occlusal stage only removes rows. -/
lemma stage_occlusal_subset (db : CompositeDatabase) (b : Bool) {df : List Composite}
    {c : Composite} (h : c ∈ stage_occlusal db b df) : c ∈ df := by
  by_cases hb : b
  · subst hb
    simp only [stage_occlusal, if_pos] at h
    exact mem_filterD (mem_filterD (mem_filterD (mem_filterD (mem_filterD (mem_filterD h)))))
  · simpa [stage_occlusal, hb] using h

/-- The article-rules stage only removes rows. -/
lemma stage_article_subset (b : Bool) {df : List Composite} {c : Composite}
    (h : c ∈ stage_article b df) : c ∈ df := by
  by_cases hb : b
  · subst hb
    simp only [stage_article, if_pos] at h
    exact mem_filterD (mem_filterD h)
  · simpa [stage_article, hb] using h

/-- The anomaly stage only removes rows. -/
lemma stage_anomaly_subset (db : CompositeDatabase) (b : Bool) {df : List Composite}
    {c : Composite} (h : c ∈ stage_anomaly db b df) : c ∈ df := by
  by_cases hb : b
  · subst hb
    simp only [stage_anomaly, if_pos] at h
    exact mem_filterD (mem_filterD (mem_filterD h))
  · simpa [stage_anomaly, hb] using h

/-- A grade/degree criteria application only removes rows. -/
lemma apply_grade_subset (g : GradeCriteria) {df : List Composite} {c : Composite}
    (h : c ∈ apply_grade_criteria g df) : c ∈ df := by
  simp only [apply_grade_criteria] at h
  split at h
  · exact mem_filterD (mem_filterD (mem_filterD h))
  · exact mem_filterD (mem_filterD (mem_filterD h))

/-- The wear-severity stage only removes rows. -/
lemma stage_wear_subset (db : CompositeDatabase) (ws : Option String) {df : List Composite}
    {c : Composite} (h : c ∈ stage_wear db ws df) : c ∈ df := by
  rcases ws with _ | s
  · exact h
  · simp only [stage_wear] at h
    repeat' split at h
    all_goals
      first
      | exact h
      | exact apply_grade_subset _ h
      | exact mem_filterD h
      | exact mem_filterD (mem_filterD h)

/-- The optional region/manufacturer/year/price stage only removes rows. -/
lemma stage_extra_subset (db : CompositeDatabase) (rf mf : Option (List String))
    (ym : Option ℤ) (pm : Option ℚ) {df : List Composite} {c : Composite}
    (h : c ∈ stage_extra db rf mf ym pm df) : c ∈ df := by
  simp only [stage_extra] at h
  repeat' split at h
  all_goals
    first
    | exact h
    | exact mem_filterD h
    | exact mem_filterD (mem_filterD h)
    | exact mem_filterD (mem_filterD (mem_filterD h))
    | exact mem_filterD (mem_filterD (mem_filterD (mem_filterD h)))

/-- Survivors of the article-rules stage satisfy both hard bounds. -/
lemma stage_article_true_bounds {df : List Composite} {c : Composite}
    (h : c ∈ stage_article true df) :
    c.polymerization_shrinkage_percent ≤ 3 ∧ 20 ≤ c.filler_content_percent := by
  simp only [stage_article, if_pos] at h
  have h2 := List.mem_filter.mp h
  have h1 := List.mem_filter.mp h2.1
  constructor
  · have := of_decide_eq_true h1.2
    norm_num at this
    exact this
  · have := of_decide_eq_true h2.2
    norm_num at this
    exact this

/-! ### C2: the article rules are enforced -/

/-- C2: with `use_article_rules = true`, every composite in the result of
`filter_composites` has shrinkage at most 3.0 % and filler content at
least 20.0 %, and any composite violating either bound is absent from the
result. -/
theorem c2_article_rules_enforced (db : CompositeDatabase) (fo ha : Bool) (ws : Option String)
    (rf mf : Option (List String)) (ym : Option ℤ) (pm : Option ℚ) :
    (∀ c ∈ filter_composites db fo ha ws true rf mf ym pm,
        c.polymerization_shrinkage_percent ≤ 3 ∧ 20 ≤ c.filler_content_percent) ∧
    (∀ c : Composite,
        3 < c.polymerization_shrinkage_percent ∨ c.filler_content_percent < 20 →
        c ∉ filter_composites db fo ha ws true rf mf ym pm) := by
  have key : ∀ c ∈ filter_composites db fo ha ws true rf mf ym pm,
      c.polymerization_shrinkage_percent ≤ 3 ∧ 20 ≤ c.filler_content_percent := by
    intro c hc
    rw [filter_composites] at hc
    exact stage_article_true_bounds
      (stage_anomaly_subset db ha (stage_wear_subset db ws (stage_extra_subset db rf mf ym pm hc)))
  refine ⟨key, fun c hviol hc => ?_⟩
  rcases key c hc with ⟨hs, hf⟩
  rcases hviol with hv | hv
  · exact absurd hs (not_le.mpr hv)
  · exact absurd hf (not_le.mpr hv)

/-! ### C10: unmatched TWES/Bushan codes disable the wear stage -/

/-- An unmatched grade/degree (or an absent table) makes the wear stage
the identity. -/
lemma stage_wear_unmatched (db : CompositeDatabase) (s : String)
    (h : (strStarts s "twes_" = true ∧ twes_grade_criteria db s = none) ∨
         (strStarts s "bushan_" = true ∧ bushan_degree_criteria db s = none))
    (df : List Composite) : stage_wear db (some s) df = df := by
  have hne : s ≠ "" := by
    intro he
    subst he
    rcases h with ⟨h1, _⟩ | ⟨h1, _⟩ <;> exact absurd h1 (by decide)
  rcases h with ⟨h1, h2⟩ | ⟨h1, h2⟩
  · simp [stage_wear, hne, h1, h2]
  · have hnt : strStarts s "twes_" = false := by
      unfold strStarts at h1 ⊢
      rw [show "bushan_".toList = ['b', 'u', 's', 'h', 'a', 'n', '_'] from rfl] at h1
      rw [show "twes_".toList = ['t', 'w', 'e', 's', '_'] from rfl]
      rcases hl : s.toList with _ | ⟨c, cs⟩ <;> rw [hl] at h1
      · exact absurd h1 (by decide)
      · simp only [charsStart, Bool.and_eq_true, decide_eq_true_eq] at h1
        obtain ⟨rfl, -⟩ := h1
        simp [charsStart]
    simp [stage_wear, hne, hnt, h1, h2]

/-- C10: when `wear_severity` starts with `twes_` or `bushan_` but its
grade/degree suffix is not a key of the corresponding classification
table (or the table is absent or grade-less), `filter_composites` applies
no wear-severity filtering: the result equals the identical call with no
wear severity, and the unrecognized code is accepted without error. -/
theorem c10_unmatched_wear_code_ignored (db : CompositeDatabase) (fo ha ar : Bool)
    (rf mf : Option (List String)) (ym : Option ℤ) (pm : Option ℚ) (s : String)
    (h : (strStarts s "twes_" = true ∧ twes_grade_criteria db s = none) ∨
         (strStarts s "bushan_" = true ∧ bushan_degree_criteria db s = none)) :
    filter_composites db fo ha (some s) ar rf mf ym pm =
      filter_composites db fo ha none ar rf mf ym pm := by
  unfold filter_composites
  rw [stage_wear_unmatched db s h]
  rfl

/-- C10 witness: `twes_99` is not a grade of the concrete catalog's TWES
table, so filtering with it equals filtering with no wear severity. -/
theorem c10_witness :
    filter_composites db0 true false (some "twes_99") true none none none none =
      filter_composites db0 true false none true none none none none :=
  c10_unmatched_wear_code_ignored db0 true false true none none none none "twes_99"
    (Or.inl ⟨by decide, by decide⟩)

/-! ### C9: too few labeled pairs abort training with no model -/

/-- C9: with fewer than 2 labeled training pairs (null-labeled control
pairs excluded before counting), `train` raises and the trainer's `model`
attribute is unchanged by the failed call. -/
theorem c9_insufficient_data_no_model (st : TrainerState) (pairs : List EMGCompositePair)
    (mt : String) (ue : Bool) (tts : List (List ℚ) → List String → TTSplit)
    (h : (pairs.filter isLabeled).length < 2) :
    ∃ e st2, train st pairs mt ue tts = .error (e, st2) ∧ st2.model = st.model := by
  by_cases h0 : pairs = []
  · exact ⟨.no_data, st, by simp [train, h0], rfl⟩
  · by_cases h1 : pairs.filter isLabeled = []
    · exact ⟨.no_labeled_pairs, st, by simp [train, h0, h1], rfl⟩
    · have hX : (prepare_X pairs).length < 2 := by
        simpa [prepare_X] using h
      refine ⟨.insufficient_data (prepare_X pairs).length,
        { st with feature_names := feature_cols }, ?_, rfl⟩
      simp [train, h0, h1, if_pos hX]

/-- C9 witness: training on the empty pair list fails and leaves the
fresh trainer's (absent) model in place. -/
theorem c9_witness :
    ∃ e st2, train st0 [] "random_forest" true tts0 = .error (e, st2) ∧
      st2.model = st0.model :=
  c9_insufficient_data_no_model st0 [] "random_forest" true tts0 (by decide)

/-! ### C3: the split policy of `train` -/

/-- C3 (amended): when `train` sees strictly more than 200 labeled
examples and every class has at least 5 examples, the 10 %-holdout split
is taken for evaluation only while the deployed model is fit on the full
labeled dataset; with at most 200 examples (or any class below 5) both
training and evaluation use the same full set.  In every branch the
deployed model is fit on all of `X`. -/
theorem c3_split_policy (st : TrainerState) (pairs : List EMGCompositePair) (ue : Bool)
    (tts : List (List ℚ) → List String → TTSplit)
    (h2 : 2 ≤ (prepare_X pairs).length) :
    ((prepare_X pairs).length > 200 ∧ 5 ≤ minClassCount (prepare_y pairs) →
      resolve_split (prepare_X pairs) (prepare_y pairs) tts =
        { X_train := prepare_X pairs
          X_test := (tts (prepare_X pairs) (prepare_y pairs)).X_test
          y_train := prepare_y pairs
          y_test := (tts (prepare_X pairs) (prepare_y pairs)).y_test }) ∧
    (¬((prepare_X pairs).length > 200 ∧ 5 ≤ minClassCount (prepare_y pairs)) →
      resolve_split (prepare_X pairs) (prepare_y pairs) tts =
        { X_train := prepare_X pairs
          X_test := prepare_X pairs
          y_train := prepare_y pairs
          y_test := prepare_y pairs }) ∧
    (∃ st2 m, train st pairs "random_forest" ue tts = .ok (st2, m) ∧
      st2.model = some
        { kind := if ue ∧ (prepare_X pairs).length > 50 then "ensemble" else "random_forest"
          fit_X := prepare_X pairs
          fit_y := prepare_y pairs } ∧
      st2.scaler_fit = some (prepare_X pairs) ∧
      m.train_size = (prepare_X pairs).length ∧
      m.test_size = (resolve_split (prepare_X pairs) (prepare_y pairs) tts).X_test.length) := by
  have hXtrain : (resolve_split (prepare_X pairs) (prepare_y pairs) tts).X_train =
      prepare_X pairs := by
    unfold resolve_split
    split_ifs <;> rfl
  have hytrain : (resolve_split (prepare_X pairs) (prepare_y pairs) tts).y_train =
      prepare_y pairs := by
    unfold resolve_split
    split_ifs <;> rfl
  refine ⟨fun hbig => ?_, fun hsmall => ?_, ?_⟩
  · simp [resolve_split, hbig]
  · unfold resolve_split
    rw [if_neg hsmall]
    split_ifs <;> rfl
  · have h0 : pairs ≠ [] := by
      intro he
      rw [he] at h2
      simp [prepare_X] at h2
    have h1 : pairs.filter isLabeled ≠ [] := by
      intro he
      have : (prepare_X pairs).length = 0 := by simp [prepare_X, he]
      omega
    have hX2 : ¬((prepare_X pairs).length < 2) := by omega
    simp only [train, if_neg h0, if_neg h1, if_neg hX2]
    rw [if_neg (by simp)]
    refine ⟨_, _, rfl, ?_, ?_, ?_, ?_⟩
    · simp [hXtrain, hytrain]
    · simp [hXtrain]
    · simp [hXtrain]
    · rfl

/-- C3 witness: the amended policy instantiated at the concrete
two-example training set (the small-data branch). -/
theorem c3_witness :
    ((prepare_X pairs2).length > 200 ∧ 5 ≤ minClassCount (prepare_y pairs2) →
      resolve_split (prepare_X pairs2) (prepare_y pairs2) tts0 =
        { X_train := prepare_X pairs2
          X_test := (tts0 (prepare_X pairs2) (prepare_y pairs2)).X_test
          y_train := prepare_y pairs2
          y_test := (tts0 (prepare_X pairs2) (prepare_y pairs2)).y_test }) ∧
    (¬((prepare_X pairs2).length > 200 ∧ 5 ≤ minClassCount (prepare_y pairs2)) →
      resolve_split (prepare_X pairs2) (prepare_y pairs2) tts0 =
        { X_train := prepare_X pairs2
          X_test := prepare_X pairs2
          y_train := prepare_y pairs2
          y_test := prepare_y pairs2 }) ∧
    (∃ st2 m, train st0 pairs2 "random_forest" true tts0 = .ok (st2, m) ∧
      st2.model = some
        { kind := if true ∧ (prepare_X pairs2).length > 50 then "ensemble" else "random_forest"
          fit_X := prepare_X pairs2
          fit_y := prepare_y pairs2 } ∧
      st2.scaler_fit = some (prepare_X pairs2) ∧
      m.train_size = (prepare_X pairs2).length ∧
      m.test_size = (resolve_split (prepare_X pairs2) (prepare_y pairs2) tts0).X_test.length) :=
  c3_split_policy st0 pairs2 true tts0 (by decide)

set_option maxRecDepth 4000 in
/-- C3 counterexample: a training set with exactly 200 labeled examples
and every class supported by 5 satisfies the claim's premise ("at least
200"), yet the code's strict `len(X) > 200` test fails, so the evaluation
set is the full 200-row set rather than the 20-row (10 %) holdout the
claim requires. -/
theorem c3_counterexample :
    (prepare_X pairs200).length = 200 ∧
    minClassCount (prepare_y pairs200) = 5 ∧
    trainTestSize (train st0 pairs200 "random_forest" true tts0) = 200 ∧
    trainTrainSize (train st0 pairs200 "random_forest" true tts0) = 200 ∧
    (tts0 (prepare_X pairs200) (prepare_y pairs200)).X_test.length = 20 :=
  ⟨rfl, rfl, rfl, rfl, rfl⟩

/-! ### C6: the score is strictly increasing in microhardness -/

/-- The score splits into a hardness-proportional part and a
hardness-independent rest. -/
lemma calculate_composite_score_decompose (db : CompositeDatabase) (comp : Composite)
    (feat : List (String × ℚ)) (pd : PatientData) :
    calculate_composite_score db comp feat pd =
      (0.3 + asymBonusCoeff feat) *
        (comp.microhardness_KHN / seriesMax (db.composites.map (fun x => x.microhardness_KHN)))
      + scoreRest db comp pd := by
  unfold calculate_composite_score asymBonusCoeff scoreRest hyperBonusCoeff
  cases hla : feat.lookup "masseter_asymmetry_chewing" with
  | none =>
    cases hh : pd.mvc_hyperfunction_percent with
    | none => ring
    | some hv =>
      by_cases hc : hv ≠ 0 ∧ 20 < hv
      · simp only [if_pos hc]
        cases hd : pd.mvc_duration_sec_per_min with
        | none => ring
        | some dv =>
          by_cases hdc : dv ≠ 0 ∧ 4 ≤ dv
          · simp only [if_pos hdc]; ring
          · simp only [if_neg hdc]; ring
      · simp only [if_neg hc]; ring
  | some a =>
    by_cases hac : 20 < a <;>
      [simp only [if_pos hac]; simp only [if_neg hac]] <;>
    · cases hh : pd.mvc_hyperfunction_percent with
      | none => ring
      | some hv =>
        by_cases hc : hv ≠ 0 ∧ 20 < hv
        · simp only [if_pos hc]
          cases hd : pd.mvc_duration_sec_per_min with
          | none => ring
          | some dv =>
            by_cases hdc : dv ≠ 0 ∧ 4 ≤ dv
            · simp only [if_pos hdc]; ring
            · simp only [if_neg hdc]; ring
        · simp only [if_neg hc]; ring

/-- C6: for a fixed catalog with positive maximum microhardness, fixed
EMG features and fixed patient data, `calculate_composite_score` is
strictly increasing in the scored composite's `microhardness_KHN` with
all of the composite's other attributes held fixed. -/
theorem c6_score_monotone_in_hardness (db : CompositeDatabase) (c : Composite)
    (feat : List (String × ℚ)) (pd : PatientData) (h1 h2 : ℚ)
    (hmax : 0 < seriesMax (db.composites.map (fun x => x.microhardness_KHN)))
    (hlt : h1 < h2) :
    calculate_composite_score db { c with microhardness_KHN := h1 } feat pd <
    calculate_composite_score db { c with microhardness_KHN := h2 } feat pd := by
  have hdiv : h1 / seriesMax (db.composites.map (fun x => x.microhardness_KHN)) <
      h2 / seriesMax (db.composites.map (fun x => x.microhardness_KHN)) := by
    have hM := inv_pos.mpr hmax
    have := mul_lt_mul_of_pos_right hlt hM
    simpa [div_eq_mul_inv] using this
  have hB : 0 ≤ asymBonusCoeff feat := by
    unfold asymBonusCoeff
    cases feat.lookup "masseter_asymmetry_chewing" with
    | none => exact le_refl _
    | some a =>
      show (0 : ℚ) ≤ if 20 < a then 0.1 else 0
      split_ifs <;> norm_num
  have hrest : scoreRest db { c with microhardness_KHN := h1 } pd =
      scoreRest db { c with microhardness_KHN := h2 } pd := rfl
  rw [calculate_composite_score_decompose, calculate_composite_score_decompose, hrest]
  have hm1 : ({ c with microhardness_KHN := h1 } : Composite).microhardness_KHN = h1 := rfl
  have hm2 : ({ c with microhardness_KHN := h2 } : Composite).microhardness_KHN = h2 := rfl
  rw [hm1, hm2]
  have hpos : (0 : ℚ) < 0.3 + asymBonusCoeff feat := by
    have h03 : (0 : ℚ) < 0.3 := by norm_num
    linarith
  have := mul_lt_mul_of_pos_left hdiv hpos
  linarith

/-- C6 witness: raising `compA`'s microhardness from 70 to 80 strictly
raises its score against the concrete catalog. -/
theorem c6_witness :
    calculate_composite_score db0 { compA with microhardness_KHN := 70 } [] pd0 <
    calculate_composite_score db0 { compA with microhardness_KHN := 80 } [] pd0 :=
  c6_score_monotone_in_hardness db0 compA [] pd0 70 80 (by decide) (by norm_num)

/-! ### C7: what `create_emg_features` produces -/

/-- C7 counterexample: on an input with no positive raw values the raw
feature is present but the control-normalized feature is absent, so
`create_emg_features` does not produce "both the raw value and the
control-normalized value" for every input dictionary. -/
theorem c7_counterexample :
    (create_emg_features emgDict0).lookup "masseter_right_chewing_raw" = some 0 ∧
    (create_emg_features emgDict0).lookup "masseter_right_chewing_normalized" = none := by
  decide

/-- Distributes a lookup over a conditional block of entries. -/
lemma lookup_ite_append (k : String) (c : Prop) [Decidable c]
    (l1 l2 l3 : List (String × ℚ)) :
    List.lookup k ((if c then l1 else l2) ++ l3) =
      if c then List.lookup k (l1 ++ l3) else List.lookup k (l2 ++ l3) := by
  split <;> rfl

/-- Unfolds one association-list entry of a lookup. -/
lemma lookup_cons_q (k a : String) (v : ℚ) (l : List (String × ℚ)) :
    List.lookup k ((a, v) :: l) = if a = k then some v else List.lookup k l := by
  by_cases h : a = k
  · simp [List.lookup, h]
  · have hb : (k == a) = false := beq_eq_false_iff_ne.mpr (fun he => h he.symm)
    simp [List.lookup, h, hb]

/-- A lookup in the empty association list. -/
lemma lookup_nil_q (k : String) : List.lookup k ([] : List (String × ℚ)) = none := rfl

/-- C7 (amended): for every input EMG dictionary, `create_emg_features`
produces, for each of the 4 muscle-side combinations under each of the 2
conditions, the raw value (defaulted to 0 when the key is missing)
together with the control-normalized value whenever that raw value is
strictly positive — and no normalized entry otherwise; it also produces
the left/right asymmetries `abs(right - left)` of the raw chewing values
for both muscle types and the two apparatus indicator features. -/
theorem c7_feature_contents (d : EMGDict) :
    ((create_emg_features d).lookup "masseter_right_chewing_raw" =
      some (d.masseter_right_chewing.getD 0)) ∧
    ((create_emg_features d).lookup "masseter_left_chewing_raw" =
      some (d.masseter_left_chewing.getD 0)) ∧
    ((create_emg_features d).lookup "temporalis_right_chewing_raw" =
      some (d.temporalis_right_chewing.getD 0)) ∧
    ((create_emg_features d).lookup "temporalis_left_chewing_raw" =
      some (d.temporalis_left_chewing.getD 0)) ∧
    ((create_emg_features d).lookup "masseter_right_max_clench_raw" =
      some (d.masseter_right_max_clench.getD 0)) ∧
    ((create_emg_features d).lookup "masseter_left_max_clench_raw" =
      some (d.masseter_left_max_clench.getD 0)) ∧
    ((create_emg_features d).lookup "temporalis_right_max_clench_raw" =
      some (d.temporalis_right_max_clench.getD 0)) ∧
    ((create_emg_features d).lookup "temporalis_left_max_clench_raw" =
      some (d.temporalis_left_max_clench.getD 0)) ∧
    ((create_emg_features d).lookup "masseter_right_chewing_normalized" =
      if 0 < d.masseter_right_chewing.getD 0 then
        some (normalize_to_control (d.masseter_right_chewing.getD 0)
          (parseApparatus (d.apparatus.getD "Synapsys")) .masseter .chewing "right")
      else none) ∧
    ((create_emg_features d).lookup "masseter_right_max_clench_normalized" =
      if 0 < d.masseter_right_max_clench.getD 0 then
        some (normalize_to_control (d.masseter_right_max_clench.getD 0)
          (parseApparatus (d.apparatus.getD "Synapsys")) .masseter .max_clench "right")
      else none) ∧
    ((create_emg_features d).lookup "temporalis_right_chewing_normalized" =
      if 0 < d.temporalis_right_chewing.getD 0 then
        some (normalize_to_control (d.temporalis_right_chewing.getD 0)
          (parseApparatus (d.apparatus.getD "Synapsys")) .temporalis .chewing "right")
      else none) ∧
    ((create_emg_features d).lookup "temporalis_right_max_clench_normalized" =
      if 0 < d.temporalis_right_max_clench.getD 0 then
        some (normalize_to_control (d.temporalis_right_max_clench.getD 0)
          (parseApparatus (d.apparatus.getD "Synapsys")) .temporalis .max_clench "right")
      else none) ∧
    ((create_emg_features d).lookup "masseter_left_chewing_normalized" =
      if 0 < d.masseter_left_chewing.getD 0 then
        some (normalize_to_control (d.masseter_left_chewing.getD 0)
          (parseApparatus (d.apparatus.getD "Synapsys")) .masseter .chewing "left")
      else none) ∧
    ((create_emg_features d).lookup "masseter_left_max_clench_normalized" =
      if 0 < d.masseter_left_max_clench.getD 0 then
        some (normalize_to_control (d.masseter_left_max_clench.getD 0)
          (parseApparatus (d.apparatus.getD "Synapsys")) .masseter .max_clench "left")
      else none) ∧
    ((create_emg_features d).lookup "temporalis_left_chewing_normalized" =
      if 0 < d.temporalis_left_chewing.getD 0 then
        some (normalize_to_control (d.temporalis_left_chewing.getD 0)
          (parseApparatus (d.apparatus.getD "Synapsys")) .temporalis .chewing "left")
      else none) ∧
    ((create_emg_features d).lookup "temporalis_left_max_clench_normalized" =
      if 0 < d.temporalis_left_max_clench.getD 0 then
        some (normalize_to_control (d.temporalis_left_max_clench.getD 0)
          (parseApparatus (d.apparatus.getD "Synapsys")) .temporalis .max_clench "left")
      else none) ∧
    ((create_emg_features d).lookup "masseter_asymmetry_chewing" =
      some |d.masseter_right_chewing.getD 0 - d.masseter_left_chewing.getD 0|) ∧
    ((create_emg_features d).lookup "temporalis_asymmetry_chewing" =
      some |d.temporalis_right_chewing.getD 0 - d.temporalis_left_chewing.getD 0|) ∧
    ((create_emg_features d).lookup "apparatus_synapsys" =
      some (if parseApparatus (d.apparatus.getD "Synapsys") = .synapsys then 1 else 0)) ∧
    ((create_emg_features d).lookup "apparatus_kolibri" =
      some (if parseApparatus (d.apparatus.getD "Synapsys") = .kolibri then 1 else 0)) := by
  refine ⟨?_, ?_, ?_, ?_, ?_, ?_, ?_, ?_, ?_, ?_, ?_, ?_, ?_, ?_, ?_, ?_, ?_, ?_, ?_, ?_⟩ <;>
    simp +decide [create_emg_features, normEntry, lookup_ite_append, lookup_cons_q,
      lookup_nil_q, List.append_assoc]

/-! ### C1: tiering and ranking of `select_composite` -/

/-- In a truncated concatenation whose first block avoids `p` and whose
second block satisfies `p`, once `p` holds at an index it holds at every
later index. -/
lemma tier_prefix_take {T : Type} (p : T → Prop) (P A : List T)
    (hP : ∀ x ∈ P, ¬ p x) (hA : ∀ x ∈ A, p x) (n i j : ℕ)
    (hij : i ≤ j) (hj : j < ((P ++ A).take n).length)
    (hip : p (((P ++ A).take n).get ⟨i, lt_of_le_of_lt hij hj⟩)) :
    p (((P ++ A).take n).get ⟨j, hj⟩) := by
  have hjlen : j < (P ++ A).length := by
    rw [List.length_take] at hj
    exact lt_of_lt_of_le hj (min_le_right _ _)
  have hilen : i < (P ++ A).length := lt_of_le_of_lt hij hjlen
  rw [List.get_eq_getElem] at hip ⊢
  rw [List.getElem_take] at hip ⊢
  by_cases hiP : i < P.length
  · exfalso
    have hEq : (P ++ A)[i] = P[i] := List.getElem_append_left hiP
    rw [hEq] at hip
    exact hP _ (List.getElem_mem hiP) hip
  · have hPj : P.length ≤ j := le_trans (not_lt.mp hiP) hij
    have hAj : j - P.length < A.length := by
      rw [List.length_append] at hjlen
      omega
    have hEq : (P ++ A)[j] = A[j - P.length] := List.getElem_append_right hPj
    rw [hEq]
    exact hA _ (List.getElem_mem hAj)

/-- The composite component of a scored result tuple. -/
lemma scoredEntry_fst (db : CompositeDatabase) (pd : PatientData) (b : Bool) (c : Composite) :
    (scoredEntry db pd b c).1 = c := rfl

/-- The score component of a scored result tuple. -/
lemma scoredEntry_score (db : CompositeDatabase) (pd : PatientData) (b : Bool) (c : Composite) :
    (scoredEntry db pd b c).2.1 = selectScore db pd c := rfl

/-- C1: `select_composite` returns the priority-tier candidates (filler
content in `[20, 55)`) scored and stable-sorted by descending score,
followed by the scored and sorted alternative-tier candidates (filler
content `≥ 55`, included only when `include_alternatives` is set, as on
the default path), truncated to at most `top_n` entries; every
priority-tier entry precedes every alternative-tier entry in the result
regardless of score. -/
theorem c1_select_composite_tiering (db : CompositeDatabase) (pd : PatientData)
    (n : ℕ) (ia : Bool) :
    ∃ P A : List (Composite × ℚ × Justification),
      select_composite db pd n ia = (P ++ A).take n ∧
      P.Perm ((selectPriority db pd).map (scoredEntry db pd true)) ∧
      A.Perm ((if ia then selectAlternative db pd else []).map (scoredEntry db pd false)) ∧
      List.Sorted scoreDesc P ∧
      List.Sorted scoreDesc A ∧
      (∀ x ∈ P, 20 ≤ x.1.filler_content_percent ∧ x.1.filler_content_percent < 55 ∧
        x.2.1 = selectScore db pd x.1) ∧
      (∀ x ∈ A, 55 ≤ x.1.filler_content_percent ∧ x.2.1 = selectScore db pd x.1) ∧
      ((P ++ A).take n).length ≤ n ∧
      (∀ i j : ℕ, ∀ hij : i ≤ j, ∀ hj : j < ((P ++ A).take n).length,
        55 ≤ (((P ++ A).take n).get ⟨i, lt_of_le_of_lt hij hj⟩).1.filler_content_percent →
        55 ≤ (((P ++ A).take n).get ⟨j, hj⟩).1.filler_content_percent) := by
  have h20 : (20.0 : ℚ) = 20 := by norm_num
  have h55 : (55.0 : ℚ) = 55 := by norm_num
  by_cases hf : selectFiltered db pd = []
  · refine ⟨[], [], ?_, ?_, ?_, List.sorted_nil, List.sorted_nil, ?_, ?_, ?_, ?_⟩
    · simp [select_composite, hf]
    · have hp : selectPriority db pd = [] := by simp [selectPriority, hf]
      simp [hp]
    · have ha : selectAlternative db pd = [] := by simp [selectAlternative, hf]
      cases ia <;> simp [ha]
    · intro x hx
      exact absurd hx (List.not_mem_nil x)
    · intro x hx
      exact absurd hx (List.not_mem_nil x)
    · simp
    · intro i j hij hj hi55
      simp at hj
  · refine ⟨List.insertionSort scoreDesc ((selectPriority db pd).map (scoredEntry db pd true)),
      List.insertionSort scoreDesc
        ((if ia then selectAlternative db pd else []).map (scoredEntry db pd false)),
      ?_, List.perm_insertionSort _ _, List.perm_insertionSort _ _,
      List.sorted_insertionSort _ _, List.sorted_insertionSort _ _, ?_, ?_, ?_, ?_⟩
    · unfold select_composite
      rw [if_neg hf]
    · intro x hx
      rw [List.mem_insertionSort] at hx
      obtain ⟨c, hc, rfl⟩ := List.mem_map.mp hx
      rw [scoredEntry_fst, scoredEntry_score]
      have hc2 : c ∈ selectFiltered db pd ∧ 20.0 ≤ c.filler_content_percent ∧
          c.filler_content_percent < 55.0 := by simpa [selectPriority] using hc
      have hdec := hc2.2
      rw [h20, h55] at hdec
      exact ⟨hdec.1, hdec.2, rfl⟩
    · intro x hx
      rw [List.mem_insertionSort] at hx
      obtain ⟨c, hc, rfl⟩ := List.mem_map.mp hx
      cases ia with
      | false => simp at hc
      | true =>
        simp only [if_pos] at hc
        rw [scoredEntry_fst, scoredEntry_score]
        have hc2 : c ∈ selectFiltered db pd ∧ 55.0 ≤ c.filler_content_percent := by
          simpa [selectAlternative] using hc
        have hdec := hc2.2
        rw [h55] at hdec
        exact ⟨hdec, rfl⟩
    · rw [List.length_take]
      exact min_le_left _ _
    · intro i j hij hj hi55
      refine tier_prefix_take (fun x => 55 ≤ x.1.filler_content_percent) _ _ ?_ ?_ n i j hij hj hi55
      · intro x hx
        rw [List.mem_insertionSort] at hx
        obtain ⟨c, hc, rfl⟩ := List.mem_map.mp hx
        show ¬55 ≤ (scoredEntry db pd true c).1.filler_content_percent
        rw [scoredEntry_fst]
        have hc2 : c ∈ selectFiltered db pd ∧ 20.0 ≤ c.filler_content_percent ∧
            c.filler_content_percent < 55.0 := by simpa [selectPriority] using hc
        have hdec := hc2.2
        rw [h20, h55] at hdec
        exact not_le.mpr hdec.2
      · intro x hx
        rw [List.mem_insertionSort] at hx
        obtain ⟨c, hc, rfl⟩ := List.mem_map.mp hx
        cases ia with
        | false => simp at hc
        | true =>
          simp only [if_pos] at hc
          show 55 ≤ (scoredEntry db pd false c).1.filler_content_percent
          rw [scoredEntry_fst]
          have hc2 : c ∈ selectFiltered db pd ∧ 55.0 ≤ c.filler_content_percent := by
            simpa [selectAlternative] using hc
          have hdec := hc2.2
          rw [h55] at hdec
          exact hdec

end AICS
